import Mathlib

/-!
Shallow embedding of the `CodingTestMonitor` analytics engine found in
`streamlit_app.py` and `pcc_streamlit_app.py` (the two files implement the
same engine; where their method bodies are semantically identical a single
Lean definition models both).

Modelling conventions:
* pandas `DataFrame`s become a list of typed rows plus per-column presence
  flags (a raw CSV/Excel table may lack columns; method bodies test
  `if col in df.columns`).
* floating point scores are modelled as `ℚ`; pandas `NaN` results of
  aggregations over empty data are modelled as `Option.none`
  (pandas `Series.mean()` of an empty series returns `NaN`, it does not
  raise).
* Python exceptions caught by the `try`/`except` wrappers of the methods
  become `Except`/`Option` values.
-/

/-- One raw cell of an input table before normalization.  `num q` models a
value that `pd.to_numeric` can interpret (numbers and numeric strings),
`text s` a string value the numeric parser cannot interpret, and `absent`
a missing value (`NaN`/empty cell). -/
inductive RawCell
  | absent
  | num (q : ℚ)
  | text (s : String)
deriving DecidableEq, Repr

/-- Models `pd.to_numeric(col, errors=coerce)` on one cell: unparsable or
missing cells coerce to `NaN` (here `none`). -/
def toNumeric : RawCell → Option ℚ
  | .num q => some q
  | .text _ => none
  | .absent => none

/-- Models pandas `astype(str)` on one cell: a missing value stringifies to
the literal string "nan" (it is not kept as a null). The exact numeral
rendering of numbers is immaterial to every claim. -/
def toStr : RawCell → String
  | .absent => "nan"
  | .num q => toString q
  | .text s => s

/-- One raw row of an input table, one cell per logical column
(`No.`, 시험과목, 이메일, 합격여부, 총점, 등급(Lv.), 학과, 학년, 학번). -/
structure RawRow where
  no : RawCell
  subject : RawCell
  email : RawCell
  passFail : RawCell
  score : RawCell
  level : RawCell
  dept : RawCell
  year : RawCell
  sid : RawCell
deriving DecidableEq, Repr

/-- A raw parsed table: which of the nine logical columns are present in the
source, plus the rows.  Cells of absent columns are ignored. -/
structure RawTable where
  hasNo : Bool
  hasSubject : Bool
  hasEmail : Bool
  hasPassFail : Bool
  hasScore : Bool
  hasLevel : Bool
  hasDept : Bool
  hasYear : Bool
  hasSid : Bool
  rows : List RawRow
deriving DecidableEq, Repr

/-- An uploaded file: its name (the extension is inspected by `load_data`)
and its already-parsed tabular content (`pd.read_csv` / `pd.read_excel`
are external collaborators). -/
structure FileInput where
  name : String
  table : RawTable
deriving DecidableEq, Repr

/-- One normalized record, after `load_data`'s type conversions and
`fillna`.  Fields of columns absent from the source keep a dummy default;
the `NormTable` flags record which columns really exist. -/
structure Record where
  no : ℤ
  subject : String
  email : String
  passFail : String
  score : ℚ
  level : String
  dept : String
  year : String
  sid : String
deriving DecidableEq, Repr

/-- A normalized table: column-presence flags plus normalized rows. -/
structure NormTable where
  hasNo : Bool
  hasSubject : Bool
  hasEmail : Bool
  hasPassFail : Bool
  hasScore : Bool
  hasLevel : Bool
  hasDept : Bool
  hasYear : Bool
  hasSid : Bool
  rows : List Record
deriving DecidableEq, Repr

/-- The `No.` column conversion of `load_data`:
`pd.to_numeric(errors=coerce).astype(Int64)` followed by `fillna(1)`.
A missing or unparsable cell becomes `NA` and is filled with 1; a numeric
cell with a fractional part makes the `Int64` cast raise, which aborts the
whole load (modelled as `.error`). Skipped when the column is absent. -/
def noField (t : RawTable) (r : RawRow) : Except Unit ℤ :=
  if t.hasNo then
    match toNumeric r.no with
    | none => .ok 1
    | some q => if q.den = 1 then .ok q.num else .error ()
  else .ok 1

/-- Normalization of one row, following `load_data` / `_process_data_types`:
`총점` is numerically coerced then `fillna(0)`; the six string columns are
`astype(str)`; `학년` is `astype(str)` as well — note that this turns a
missing year into the string "nan" BEFORE the `fillna` step, so the
`fillna` default "1" for `학년` is dead code. -/
def processRow (t : RawTable) (r : RawRow) : Except Unit Record :=
  match noField t r with
  | .error e => .error e
  | .ok n =>
    .ok { no := n
        , subject := if t.hasSubject then toStr r.subject else ""
        , email := if t.hasEmail then toStr r.email else ""
        , passFail := if t.hasPassFail then toStr r.passFail else ""
        , score := if t.hasScore then (toNumeric r.score).getD 0 else 0
        , level := if t.hasLevel then toStr r.level else ""
        , dept := if t.hasDept then toStr r.dept else ""
        , year := if t.hasYear then toStr r.year else ""
        , sid := if t.hasSid then toStr r.sid else "" }

/-- Row-by-row normalization; an error on any row (a non-integral `No.`
cell) aborts the whole table, matching the column-wise pandas cast which
raises if any cell is bad. -/
def processRows (t : RawTable) : List RawRow → Except Unit (List Record)
  | [] => .ok []
  | r :: rest =>
    match processRow t r with
    | .error e => .error e
    | .ok rec =>
      match processRows t rest with
      | .error e => .error e
      | .ok recs => .ok (rec :: recs)

/-- Normalization of a whole raw table (the body of `load_data` between the
file read and the assignment to `self.data`).  Column presence is
preserved; no required-column check of any kind is performed. -/
def processTable (t : RawTable) : Except Unit NormTable :=
  match processRows t t.rows with
  | .error e => .error e
  | .ok rs =>
    .ok { hasNo := t.hasNo, hasSubject := t.hasSubject, hasEmail := t.hasEmail
        , hasPassFail := t.hasPassFail, hasScore := t.hasScore
        , hasLevel := t.hasLevel, hasDept := t.hasDept, hasYear := t.hasYear
        , hasSid := t.hasSid, rows := rs }

/-- The monitor state: `self.data` (the last loaded single-round table) and
`self.all_rounds_data` (an insertion-ordered dict from round number to the
raw per-round table, modelled as an association list). -/
structure Monitor where
  data : NormTable
  all_rounds_data : List (ℕ × List Record)
deriving DecidableEq, Repr

/-- The `__init__` state: `self.data = pd.DataFrame(columns=self.columns)`
is an empty table that HAS all nine columns; `self.all_rounds_data = {}`. -/
def Monitor.init : Monitor :=
  { data := { hasNo := true, hasSubject := true, hasEmail := true
            , hasPassFail := true, hasScore := true, hasLevel := true
            , hasDept := true, hasYear := true, hasSid := true, rows := [] }
  , all_rounds_data := [] }

/-- Python `str.endswith`, written over the character list so that concrete
instances reduce inside the kernel. -/
def strEndsWith (s pat : String) : Bool :=
  (s.data.reverse.take pat.data.reverse.length) == pat.data.reverse

/-- File extensions accepted by `load_data` (`.csv`, `.xlsx`, `.xls`). -/
def supportedName (s : String) : Bool :=
  strEndsWith s ".csv" || strEndsWith s ".xlsx" || strEndsWith s ".xls"

/-- `CodingTestMonitor.load_data`: on a supported extension, normalize and
overwrite `self.data`, returning `True`; an unsupported extension (a
`NameError` in `streamlit_app.py`, a `None` table in
`pcc_streamlit_app.py`) or a failing `Int64` cast is caught by the
`except` and yields `False` with the store untouched. -/
def load_data (m : Monitor) (f : FileInput) : Bool × Monitor :=
  if supportedName f.name then
    match processTable f.table with
    | .ok t => (true, { m with data := t })
    | .error _ => (false, m)
  else (false, m)

/-- A typed column value, as pandas would compare it: `No.` holds integers,
`총점` holds floats, the other seven columns hold strings.  Comparing
values of different runtime types is simply unequal (pandas elementwise
`==` between mismatched types yields `False`, it does not raise). -/
inductive ColValue
  | str (s : String)
  | int (n : ℤ)
  | rat (q : ℚ)
deriving DecidableEq, Repr

/-- Python `str(value)`, used by the `학년` branch of `filter_data`. -/
def ColValue.render : ColValue → String
  | .str s => s
  | .int n => toString n
  | .rat q => toString q

/-- Column lookup `df[key]` on a normalized table: `none` models a
`KeyError` (unknown column name, or a column absent from the source). -/
def colFn (t : NormTable) (k : String) : Option (Record → ColValue) :=
  if k = "No." then if t.hasNo then some (fun r => .int r.no) else none
  else if k = "시험과목" then if t.hasSubject then some (fun r => .str r.subject) else none
  else if k = "이메일" then if t.hasEmail then some (fun r => .str r.email) else none
  else if k = "합격여부" then if t.hasPassFail then some (fun r => .str r.passFail) else none
  else if k = "총점" then if t.hasScore then some (fun r => .rat r.score) else none
  else if k = "등급(Lv.)" then if t.hasLevel then some (fun r => .str r.level) else none
  else if k = "학과" then if t.hasDept then some (fun r => .str r.dept) else none
  else if k = "학년" then if t.hasYear then some (fun r => .str r.year) else none
  else if k = "학번" then if t.hasSid then some (fun r => .str r.sid) else none
  else none

/-- One filter entry value: a Python list of acceptable values, or a single
scalar. -/
inductive FilterValue
  | vals (vs : List ColValue)
  | scalar (v : ColValue)
deriving DecidableEq, Repr

/-- Python truthiness of a filter value (`if value:`): empty lists, empty
strings and zero are falsy. -/
def FilterValue.truthy : FilterValue → Bool
  | .vals vs => !vs.isEmpty
  | .scalar (.str s) => !s.isEmpty
  | .scalar (.int n) => n != 0
  | .scalar (.rat q) => q != 0

/-- One filtering step of `filter_data` for a truthy value: a list value is
an `isin` membership test, a scalar on `학년` compares both sides as
strings, any other scalar compares for exact equality.  `.error` models the
`KeyError` raised by `data[key]` on an unknown column. -/
def applyFilter (t : NormTable) (rows : List Record) (k : String)
    (v : FilterValue) : Except Unit (List Record) :=
  match colFn t k with
  | none => .error ()
  | some f =>
    match v with
    | .vals vs => .ok (rows.filter (fun r => vs.contains (f r)))
    | .scalar sv =>
      if k = "학년" then
        .ok (rows.filter (fun r => (f r).render == sv.render))
      else
        .ok (rows.filter (fun r => f r == sv))

/-- The filter loop of `filter_data`: entries with falsy values are skipped;
an exception anywhere aborts the whole loop. -/
def filterFold (t : NormTable) :
    List (String × FilterValue) → List Record → Except Unit (List Record)
  | [], rows => .ok rows
  | (k, v) :: rest, rows =>
    if v.truthy then
      match applyFilter t rows k v with
      | .error e => .error e
      | .ok rows2 => filterFold t rest rows2
    else filterFold t rest rows

/-- `CodingTestMonitor.filter_data`: filters a copy of `self.data` by the
conjunction of all truthy constraints; on any exception the `except`
branch returns the unfiltered `self.data`. -/
def filter_data (t : NormTable) (filters : List (String × FilterValue)) :
    NormTable :=
  match filterFold t filters t.rows with
  | .ok rows => { t with rows := rows }
  | .error _ => t

/-- Pandas `Series.mean()`: `NaN` (here `none`) on an empty series, the
arithmetic mean otherwise. -/
def seriesMean (l : List ℚ) : Option ℚ :=
  if l = [] then none else some (l.sum / l.length)

/-- Pandas `Series.value_counts().to_dict()`: a map from each distinct value
to its number of occurrences.  (`value_counts` orders by descending count;
the claims only depend on the map contents, recorded here in first
appearance order.) -/
def valueCounts (l : List String) : List (String × ℕ) :=
  (l.foldl (fun acc s => if acc.contains s then acc else acc.concat s) []).map
    (fun s => (s, l.count s))

/-- The dictionary returned by `get_statistics`.  `passRate` and
`meanScore` are `Option` because `Series.mean()` of an empty series is
`NaN`. -/
structure BasicStats where
  totalCount : ℕ
  passRate : Option ℚ
  meanScore : Option ℚ
  deptCounts : List (String × ℕ)
  yearCounts : List (String × ℕ)
  levelCounts : List (String × ℕ)
deriving DecidableEq, Repr

/-- The all-zero fallback dictionary of `get_statistics`'s `except` branch
(the literal numbers 0, not `NaN`). -/
def zeroBasicStats : BasicStats :=
  { totalCount := 0, passRate := some 0, meanScore := some 0
  , deptCounts := [], yearCounts := [], levelCounts := [] }

/-- `CodingTestMonitor.get_statistics`: row count, pass rate
`(data[합격여부] == 합격).mean() * 100`, mean score, and the three
`value_counts` frequency maps.  A missing column raises a `KeyError`
which the `except` branch turns into the all-zero dictionary. -/
def get_statistics (t : NormTable) : BasicStats :=
  if t.hasPassFail && t.hasScore && t.hasDept && t.hasYear && t.hasLevel then
    { totalCount := t.rows.length
    , passRate :=
        (seriesMean (t.rows.map (fun r => if r.passFail = "합격" then (1 : ℚ) else 0))).map (· * 100)
    , meanScore := seriesMean (t.rows.map Record.score)
    , deptCounts := valueCounts (t.rows.map Record.dept)
    , yearCounts := valueCounts (t.rows.map Record.year)
    , levelCounts := valueCounts (t.rows.map Record.level) }
  else zeroBasicStats

/-- Insertion into a list sorted by `le` (structural recursion, so that
concrete instances reduce inside the kernel). -/
def insertBy (le : ℚ → ℚ → Bool) (x : ℚ) : List ℚ → List ℚ
  | [] => [x]
  | y :: ys => if le x y then x :: y :: ys else y :: insertBy le x ys

/-- Insertion sort by `le`. -/
def sortBy (le : ℚ → ℚ → Bool) : List ℚ → List ℚ
  | [] => []
  | x :: xs => insertBy le x (sortBy le xs)

/-- Scores sorted in descending order, as produced by `Series.nlargest`. -/
def sortDesc (l : List ℚ) : List ℚ :=
  sortBy (fun a b => decide (b ≤ a)) l

/-- Scores sorted in ascending order, as produced by `Series.nsmallest`. -/
def sortAsc (l : List ℚ) : List ℚ :=
  sortBy (fun a b => decide (a ≤ b)) l

/-- Pandas `Series.std()` with its default `ddof=1`, except that (to stay
inside `ℚ`) this stores the SQUARE of the standard deviation, i.e. the
sample variance; `NaN` (`none`) when fewer than two values.  The square
root is a monotone bijection on nonnegatives, and no claim refers to the
standard deviation's actual value. -/
def sampleVarianceSq (l : List ℚ) : Option ℚ :=
  if l.length < 2 then none
  else
    let m := l.sum / l.length
    some ((l.map (fun x => (x - m) ^ 2)).sum / ((l.length : ℚ) - 1))

/-- Pandas `Series.median()`: `NaN` on empty, the middle element of the
sorted values for odd length, the average of the two middle elements for
even length. -/
def seriesMedian (l : List ℚ) : Option ℚ :=
  if l.length = 0 then none
  else
    let s := sortAsc l
    if l.length % 2 = 1 then some (s.getD (l.length / 2) 0)
    else some ((s.getD (l.length / 2 - 1) 0 + s.getD (l.length / 2) 0) / 2)

/-- The dictionary returned by `calculate_advanced_statistics`.  All fields
are `Option` because the underlying pandas aggregations return `NaN` on
empty input; `stdSq` stores the square of the `표준편차` entry (see
`sampleVarianceSq`). -/
structure AdvStats where
  stdSq : Option ℚ
  median : Option ℚ
  maxScore : Option ℚ
  minScore : Option ℚ
  top10Mean : Option ℚ
  bottom10Mean : Option ℚ
deriving DecidableEq, Repr

/-- The decile count `int(len(data)*0.1)` of `calculate_advanced_statistics`:
truncation of `n * 0.1` towards zero.  For every table size that arises,
the IEEE-754 product `n * 0.1` lies in `[n/10, n/10 + 1)` with the same
floor as the exact value, so this equals floor division by 10 — note there
is NO clamping to a minimum of 1. -/
def decileCount (n : ℕ) : ℕ := n / 10

/-- `CodingTestMonitor.calculate_advanced_statistics`: standard deviation
(see `sampleVarianceSq`), median, max, min, and the means of the
`int(n*0.1)` largest and smallest scores.  A missing `총점` column raises
a `KeyError`, and the `except` branch returns the empty dictionary,
modelled as `none`. -/
def calculate_advanced_statistics (t : NormTable) : Option AdvStats :=
  if t.hasScore then
    let scores := t.rows.map Record.score
    some { stdSq := sampleVarianceSq scores
         , median := seriesMedian scores
         , maxScore := scores.max?
         , minScore := scores.min?
         , top10Mean := seriesMean ((sortDesc scores).take (decileCount t.rows.length))
         , bottom10Mean := seriesMean ((sortAsc scores).take (decileCount t.rows.length)) }
  else none

/-- The five radar indicators computed by `create_performance_radar`.
`improvement` is the hard-coded `개선도` value; `participation` is
`len(dept_data) / len(data)`.  The three mean-based indicators are
`Option` because the means of an empty department subset are `NaN`. -/
structure RadarMetrics where
  meanScoreNorm : Option ℚ
  passRate : Option ℚ
  topTierRate : Option ℚ
  participation : ℚ
  improvement : ℚ
deriving DecidableEq, Repr

/-- The `if department:` guard of `create_performance_radar`: a `None` or
empty-string department means no restriction, otherwise the rows are
restricted to the department. -/
def deptSubset (rows : List Record) (department : Option String) : List Record :=
  match department with
  | some d => if d.isEmpty then rows else rows.filter (fun r => r.dept == d)
  | none => rows

/-- `CodingTestMonitor.create_performance_radar`, restricted to the metric
dictionary it builds (the chart object around it is presentation glue).
When the full population is empty, `len(dept_data) / len(data)` raises
`ZeroDivisionError`; together with the `KeyError` from any missing column
this is caught by the `except` branch, which produces an empty figure and
no metrics — modelled as `none`. -/
def create_performance_radar (t : NormTable) (department : Option String) :
    Option RadarMetrics :=
  if t.hasScore && t.hasPassFail && t.hasLevel && t.hasDept then
    if t.rows.length = 0 then none
    else
      let dd := deptSubset t.rows department
      some { meanScoreNorm := (seriesMean (dd.map Record.score)).map (· / 100)
           , passRate :=
               seriesMean (dd.map (fun r => if r.passFail = "합격" then (1 : ℚ) else 0))
           , topTierRate :=
               seriesMean (dd.map (fun r => if ["A", "B"].contains r.level then (1 : ℚ) else 0))
           , participation := (dd.length : ℚ) / (t.rows.length : ℚ)
           , improvement := 1 / 2 }
  else none

/-- The four per-round source files hard-coded in `load_all_rounds_data`,
paired with the round number parsed out of each file name. -/
def roundFiles : List (ℕ × String) :=
  [ (1, "부산대학교 PCC_1회 응시 결과.csv")
  , (2, "부산대학교 PCC_2회 응시 결과.csv")
  , (3, "부산대학교 PCC_3회 응시 결과.csv")
  , (4, "부산대학교 PCC_4회 응시 결과.csv") ]

/-- Python dict assignment `d[k] = v` on an insertion-ordered dict: an
existing key keeps its position and gets the new value, a new key is
appended. -/
def dictInsert (s : List (ℕ × List Record)) (k : ℕ) (v : List Record) :
    List (ℕ × List Record) :=
  if s.any (fun p => p.1 = k) then
    s.map (fun p => if p.1 = k then (k, v) else p)
  else s ++ [(k, v)]

/-- The loop of `load_all_rounds_data`.  The whole loop sits inside one
`try`: the first file that fails to open or parse raises, the `except`
branch returns `False`, and the rounds already inserted stay in the dict
while later files are never attempted. -/
def loadRoundsGo (fs : String → Option (List Record)) :
    List (ℕ × String) → List (ℕ × List Record) → Bool × List (ℕ × List Record)
  | [], acc => (true, acc)
  | (r, f) :: rest, acc =>
    match fs f with
    | none => (false, acc)
    | some df => loadRoundsGo fs rest (dictInsert acc r df)

/-- `CodingTestMonitor.load_all_rounds_data`: `fs` models the file system
composed with `pd.read_csv` (`none` = missing file or malformed content;
per-round tables are handed over as parsed records). -/
def load_all_rounds_data (fs : String → Option (List Record)) (m : Monitor) :
    Bool × Monitor :=
  let res := loadRoundsGo fs roundFiles m.all_rounds_data
  (res.1, { m with all_rounds_data := res.2 })

/-- One row of the DataFrame produced by `get_student_progress`:
(회차, 총점, 합격여부, 등급). -/
structure ProgressEntry where
  round : ℕ
  score : ℚ
  passFail : String
  level : String
deriving DecidableEq, Repr

/-- The body of one iteration of `get_student_progress`'s loop: select the
rows of one round matching the email; if any, emit the (회차, 총점,
합격여부, 등급) of the first one (`.iloc[0]`). -/
def progressFn (email : String) (p : ℕ × List Record) : Option ProgressEntry :=
  (p.2.find? (fun r => r.email == email)).map
    (fun r => ⟨p.1, r.score, r.passFail, r.level⟩)

/-- `CodingTestMonitor.get_student_progress`: iterate the round dict in
insertion order; for each round whose table contains the email, emit one
entry taken with `.iloc[0]` from the FIRST matching row; rounds without
the email are skipped. -/
def get_student_progress (m : Monitor) (email : String) : List ProgressEntry :=
  m.all_rounds_data.filterMap (progressFn email)

/-- One call of the `filter_data` method viewed as a state transformer on
the monitor: the method body only reads `self.data` (through `.copy()` and
fresh boolean-mask frames) and never assigns any attribute, so the state
component comes back untouched. -/
def Monitor.filterCall (m : Monitor) (filters : List (String × FilterValue)) :
    NormTable × Monitor :=
  (filter_data m.data filters, m)

/-- A sequence of `filter_data` calls against the same monitor, threading
the state, collecting the returned views. -/
def Monitor.runFilters (m : Monitor) :
    List (List (String × FilterValue)) → List NormTable × Monitor
  | [] => ([], m)
  | fl :: fls =>
    let r := m.filterCall fl
    let rest := r.2.runFilters fls
    (r.1 :: rest.1, rest.2)

/-- A sample normalized record used to instantiate theorems. -/
def soloRecord : Record :=
  { no := 1, subject := "CT", email := "a@x", passFail := "합격", score := 50
  , level := "A", dept := "CS", year := "1", sid := "2024" }

/-- A single-row dataset with all columns present. -/
def soloTable : NormTable :=
  { hasNo := true, hasSubject := true, hasEmail := true, hasPassFail := true
  , hasScore := true, hasLevel := true, hasDept := true, hasYear := true
  , hasSid := true, rows := [soloRecord] }

/-- A filter map whose entries are all empty: an empty department list and
an empty year string. -/
def emptyFilters : List (String × FilterValue) :=
  [("학과", .vals []), ("학년", .scalar (.str ""))]

/-- A monitor that already holds a loaded single-row dataset. -/
def loadedMonitor : Monitor := { data := soloTable, all_rounds_data := [] }

/-- An uploaded CSV whose table is missing most of the required columns
(only 이메일 is present). -/
def missingColsFile : FileInput :=
  { name := "upload.csv"
  , table :=
      { hasNo := false, hasSubject := false, hasEmail := true
      , hasPassFail := false, hasScore := false, hasLevel := false
      , hasDept := false, hasYear := false, hasSid := false
      , rows := [{ no := .absent, subject := .absent, email := .text "b@y"
                 , passFail := .absent, score := .absent, level := .absent
                 , dept := .absent, year := .absent, sid := .absent }] } }

/-- The normalized table `load_data` produces for `missingColsFile`. -/
def normMissing : NormTable :=
  { hasNo := false, hasSubject := false, hasEmail := true
  , hasPassFail := false, hasScore := false, hasLevel := false
  , hasDept := false, hasYear := false, hasSid := false
  , rows := [{ no := 1, subject := "", email := "b@y", passFail := ""
             , score := 0, level := "", dept := "", year := "", sid := "" }] }

/-- A file system in which only the round-2 source is broken. -/
def fsRound2Missing : String → Option (List Record) := fun f =>
  if f = "부산대학교 PCC_2회 응시 결과.csv" then none else some [soloRecord]

/-- A raw row whose academic-year cell is missing. -/
def rawYearAbsent : RawRow :=
  { no := .num 1, subject := .text "CT", email := .text "a@x"
  , passFail := .text "합격", score := .num 80, level := .text "A"
  , dept := .text "CS", year := .absent, sid := .text "2024" }

/-- A full-columned raw table containing only `rawYearAbsent`. -/
def rawTableYearAbsent : RawTable :=
  { hasNo := true, hasSubject := true, hasEmail := true, hasPassFail := true
  , hasScore := true, hasLevel := true, hasDept := true, hasYear := true
  , hasSid := true, rows := [rawYearAbsent] }

/-- The normalized table produced from `rawTableYearAbsent`. -/
def normYearAbsent : NormTable :=
  { hasNo := true, hasSubject := true, hasEmail := true, hasPassFail := true
  , hasScore := true, hasLevel := true, hasDept := true, hasYear := true
  , hasSid := true
  , rows := [{ no := 1, subject := "CT", email := "a@x", passFail := "합격"
             , score := 80, level := "A", dept := "CS", year := "nan"
             , sid := "2024" }] }

/-- A second record with the same email as `soloRecord` but different
score and level. -/
def dupRecord : Record :=
  { no := 2, subject := "CT", email := "a@x", passFail := "불합격", score := 90
  , level := "B", dept := "CS", year := "1", sid := "2024" }

/-- Insertion keeps the length. -/
theorem length_insertBy (le : ℚ → ℚ → Bool) (x : ℚ) (l : List ℚ) :
    (insertBy le x l).length = l.length + 1 := by
  induction l with
  | nil => rfl
  | cons y ys ih => by_cases h : le x y = true <;> simp [insertBy, h, ih]

/-- Insertion sort keeps the length. -/
theorem length_sortBy (le : ℚ → ℚ → Bool) (l : List ℚ) :
    (sortBy le l).length = l.length := by
  induction l with
  | nil => rfl
  | cons x xs ih => simp [sortBy, length_insertBy, ih]

/-- C1 (counterexample): on the empty dataset the claimed pass rate of 0
does not hold — `(data[합격여부] == 합격).mean() * 100` is the mean of an
empty series, which is `NaN` (modelled `none`), not the number 0. -/
theorem c1_counterexample :
    (get_statistics Monitor.init.data).passRate = none ∧
    (get_statistics Monitor.init.data).passRate ≠ some 0 := by
  decide

/-- C1 (amended): applied to an empty dataset whose columns are present,
`get_statistics` raises no error; the row count is 0 and the three
frequency maps are empty, but the pass rate and the mean score are `NaN`
(the pandas mean of an empty series), not 0. -/
theorem c1_empty_stats (t : NormTable)
    (hP : t.hasPassFail = true) (hS : t.hasScore = true)
    (hD : t.hasDept = true) (hY : t.hasYear = true) (hL : t.hasLevel = true)
    (hrows : t.rows = []) :
    get_statistics t = ⟨0, none, none, [], [], []⟩ := by
  simp [get_statistics, hP, hS, hD, hY, hL, hrows, seriesMean, valueCounts]

/-- C1 witness: the empty initial table satisfies the hypotheses of
`c1_empty_stats`. -/
theorem c1_witness :
    Monitor.init.data.rows = [] ∧
    get_statistics Monitor.init.data = ⟨0, none, none, [], [], []⟩ :=
  ⟨rfl, c1_empty_stats Monitor.init.data rfl rfl rfl rfl rfl rfl⟩

/-- C6: when every filter entry is empty or absent (falsy), `filter_data`
returns the dataset unchanged, row for row. -/
theorem c6_filter_identity (t : NormTable)
    (filters : List (String × FilterValue))
    (h : ∀ p ∈ filters, FilterValue.truthy p.2 = false) :
    filter_data t filters = t := by
  have key : ∀ (fl : List (String × FilterValue)),
      (∀ p ∈ fl, FilterValue.truthy p.2 = false) →
      filterFold t fl t.rows = .ok t.rows := by
    intro fl
    induction fl with
    | nil => intro _; rfl
    | cons p rest ih =>
      intro hfl
      obtain ⟨k, v⟩ := p
      have hp : FilterValue.truthy v = false := hfl (k, v) (by simp)
      simpa [filterFold, hp] using ih (fun q hq => hfl q (List.mem_cons_of_mem _ hq))
  simp [filter_data, key filters h]

/-- C6 witness: the identity law applied at a concrete table and a concrete
all-empty filter map. -/
theorem c6_witness : filter_data soloTable emptyFilters = soloTable :=
  c6_filter_identity soloTable emptyFilters (by decide)

/-- C9: any sequence of `filter_data` calls leaves the monitor state — in
particular the stored dataset — exactly as it was; each call works on a
copy of `self.data` and assigns nothing. -/
theorem c9_filter_frame (m : Monitor)
    (fls : List (List (String × FilterValue))) :
    (m.runFilters fls).2 = m := by
  induction fls with
  | nil => rfl
  | cons fl rest ih => simpa [Monitor.runFilters, Monitor.filterCall] using ih

/-- C2 (counterexample): on a single-row dataset the advanced statistics
succeed, but `int(len(data)*0.1)` is `int(0.1) = 0`, so the top- and
bottom-decile means are the means of zero scores — `NaN` (`none`), not the
row's own score 50 as the claim requires. -/
theorem c2_counterexample :
    calculate_advanced_statistics soloTable =
      some { stdSq := none, median := some 50, maxScore := some 50
           , minScore := some 50, top10Mean := none, bottom10Mean := none } ∧
    (none : Option ℚ) ≠ some soloRecord.score := by
  decide

/-- C2 (amended): for every dataset with a score column, the decile count
used by `calculate_advanced_statistics` is `⌊0.1·n⌋` with NO clamping to a
minimum of 1: the top- (resp. bottom-) decile mean is the mean of the
`n / 10` highest (resp. lowest) scores, and whenever `n < 10` — in
particular for a single-row dataset — both decile means are the `NaN`
mean of an empty selection rather than a computed value. -/
theorem c2_decile_floor (t : NormTable) (h : t.hasScore = true) :
    ∃ s, calculate_advanced_statistics t = some s ∧
      s.top10Mean =
        seriesMean ((sortDesc (t.rows.map Record.score)).take (t.rows.length / 10)) ∧
      s.bottom10Mean =
        seriesMean ((sortAsc (t.rows.map Record.score)).take (t.rows.length / 10)) ∧
      (t.rows.length < 10 → s.top10Mean = none ∧ s.bottom10Mean = none) := by
  refine
    ⟨{ stdSq := sampleVarianceSq (t.rows.map Record.score)
     , median := seriesMedian (t.rows.map Record.score)
     , maxScore := (t.rows.map Record.score).max?
     , minScore := (t.rows.map Record.score).min?
     , top10Mean :=
         seriesMean ((sortDesc (t.rows.map Record.score)).take (decileCount t.rows.length))
     , bottom10Mean :=
         seriesMean ((sortAsc (t.rows.map Record.score)).take (decileCount t.rows.length)) },
     by simp [calculate_advanced_statistics, h], rfl, rfl, ?_⟩
  intro hlt
  have h0 : decileCount t.rows.length = 0 := Nat.div_eq_of_lt hlt
  constructor <;> simp [h0, seriesMean]

/-- C2 witness: `c2_decile_floor` applied to the concrete single-row
dataset. -/
theorem c2_witness :
    ∃ s, calculate_advanced_statistics soloTable = some s ∧
      s.top10Mean = none ∧ s.bottom10Mean = none := by
  obtain ⟨s, hs, _, _, himp⟩ := c2_decile_floor soloTable rfl
  obtain ⟨h1, h2⟩ := himp (by decide)
  exact ⟨s, hs, h1, h2⟩

/-- C3 (counterexample): loading a table that lacks required columns does
NOT fail — `load_data` returns `True` and the store's contents are
replaced by the new table.  No `SchemaError` (or any schema check) exists
in the code. -/
theorem c3_counterexample :
    (load_data loadedMonitor missingColsFile).1 = true ∧
    (load_data loadedMonitor missingColsFile).2.data ≠ loadedMonitor.data := by
  decide

/-- C3 (amended): `load_data` performs no required-column validation.  A
table with any subset of the columns loads successfully (provided the
`Int64` cast of the `No.` column succeeds) and overwrites the stored
dataset; `load_data` fails — leaving the store unchanged — only on an
unsupported file extension or a failing `Int64` cast. -/
theorem c3_no_schema_check (m : Monitor) (f : FileInput) :
    (supportedName f.name = false → load_data m f = (false, m)) ∧
    (∀ nt, supportedName f.name = true → processTable f.table = .ok nt →
      load_data m f = (true, { m with data := nt })) ∧
    (supportedName f.name = true → processTable f.table = .error () →
      load_data m f = (false, m)) := by
  refine ⟨?_, ?_, ?_⟩ <;> intros <;> simp [load_data, *]

/-- C3 witness: `c3_no_schema_check` applied to the concrete
missing-columns upload — the load succeeds and replaces the store. -/
theorem c3_witness :
    load_data loadedMonitor missingColsFile = (true, ⟨normMissing, []⟩) :=
  (c3_no_schema_check loadedMonitor missingColsFile).2.1 normMissing
    (by decide) (by rfl)

/-- Starting from the empty round dict, the store left behind by
`load_all_rounds_data` is exactly the longest prefix of the four round
files whose sources load, in file order — everything from the first
failure onwards is absent. -/
theorem load_store_eq (fs : String → Option (List Record)) :
    (load_all_rounds_data fs Monitor.init).2.all_rounds_data =
      (roundFiles.takeWhile (fun p => (fs p.2).isSome)).map
        (fun p => (p.1, (fs p.2).getD [])) := by
  rcases h1 : fs "부산대학교 PCC_1회 응시 결과.csv" with _ | t1 <;>
    rcases h2 : fs "부산대학교 PCC_2회 응시 결과.csv" with _ | t2 <;>
      rcases h3 : fs "부산대학교 PCC_3회 응시 결과.csv" with _ | t3 <;>
        rcases h4 : fs "부산대학교 PCC_4회 응시 결과.csv" with _ | t4 <;>
          simp [load_all_rounds_data, loadRoundsGo, roundFiles, dictInsert,
                Monitor.init, h1, h2, h3, h4]

/-- The overall result of `load_all_rounds_data` is `True` precisely when
every one of the four sources loads. -/
theorem load_success_iff (fs : String → Option (List Record)) :
    (load_all_rounds_data fs Monitor.init).1 = true ↔
      ∀ p ∈ roundFiles, (fs p.2).isSome = true := by
  rcases h1 : fs "부산대학교 PCC_1회 응시 결과.csv" with _ | t1 <;>
    rcases h2 : fs "부산대학교 PCC_2회 응시 결과.csv" with _ | t2 <;>
      rcases h3 : fs "부산대학교 PCC_3회 응시 결과.csv" with _ | t3 <;>
        rcases h4 : fs "부산대학교 PCC_4회 응시 결과.csv" with _ | t4 <;>
          simp [load_all_rounds_data, loadRoundsGo, roundFiles, dictInsert,
                Monitor.init, h1, h2, h3, h4]

/-- C4 (counterexample): with only the round-2 source broken, round 1
loads successfully, yet `load_all_rounds_data` reports failure, and
rounds 3 and 4 — whose sources are fine — are not in the store: the
failing round is not skipped-and-continued, and overall success is not
"at least one round loaded". -/
theorem c4_counterexample :
    (load_all_rounds_data fsRound2Missing Monitor.init).1 = false ∧
    (load_all_rounds_data fsRound2Missing Monitor.init).2.all_rounds_data =
      [(1, [soloRecord])] := by
  decide

/-- C4 (amended): the four per-round sources are attempted in ascending
file order inside a single `try`; the first failure aborts the loop,
leaving exactly the rounds before it in the store (the failing round and
every later one are never loaded), and the overall load reports success
iff ALL four sources load. -/
theorem c4_load_aborts (fs : String → Option (List Record)) :
    ((load_all_rounds_data fs Monitor.init).1 = true ↔
      ∀ p ∈ roundFiles, (fs p.2).isSome = true) ∧
    (load_all_rounds_data fs Monitor.init).2.all_rounds_data =
      (roundFiles.takeWhile (fun p => (fs p.2).isSome)).map
        (fun p => (p.1, (fs p.2).getD [])) :=
  ⟨load_success_iff fs, load_store_eq fs⟩

/-- C4 witness: `c4_load_aborts` at a file system where every source
loads. -/
theorem c4_witness :
    (load_all_rounds_data (fun _ => some [soloRecord]) Monitor.init).1 = true :=
  (c4_load_aborts (fun _ => some [soloRecord])).1.mpr (by decide)

/-- Successful row-by-row normalization relates raw rows to normalized
records pointwise. -/
theorem processRows_forall2 (t : RawTable) :
    ∀ (l : List RawRow) (l' : List Record), processRows t l = .ok l' →
      List.Forall₂ (fun a b => processRow t a = .ok b) l l' := by
  intro l
  induction l with
  | nil =>
    intro l' h
    simp only [processRows] at h
    cases h
    constructor
  | cons r rest ih =>
    intro l' h
    simp only [processRows] at h
    cases hr : processRow t r with
    | error e => rw [hr] at h; cases h
    | ok rec =>
      rw [hr] at h
      cases hrest : processRows t rest with
      | error e => rw [hrest] at h; cases h
      | ok recs =>
        rw [hrest] at h
        cases h
        exact List.Forall₂.cons hr (ih recs hrest)

/-- Field-level facts about the normalization of one row. -/
theorem processRow_fields (t : RawTable) (raw : RawRow) (rec : Record)
    (h : processRow t raw = .ok rec) :
    (t.hasScore = true → rec.score = (toNumeric raw.score).getD 0) ∧
    (t.hasNo = true → toNumeric raw.no = none → rec.no = 1) ∧
    (t.hasYear = true → rec.year = toStr raw.year) := by
  cases hnf : noField t raw with
  | error e => simp [processRow, hnf] at h
  | ok n =>
    simp only [processRow, hnf] at h
    cases h
    refine ⟨?_, ?_, ?_⟩
    · intro hs; simp [hs]
    · intro hno hnum
      have : noField t raw = .ok 1 := by simp [noField, hno, hnum]
      rw [this] at hnf
      cases hnf
      rfl
    · intro hy; simp [hy]

/-- C5 (amended): after normalization of a raw table that has the `No.`,
`총점` and `학년` columns, every record whose score is absent or
unparsable has score 0.0 and every record whose sequence number is absent
or unparsable has sequence number 1 — but a record whose academic-year is
absent gets the string "nan" (the stringification of the missing value
happens before the fill step, so the documented default "1" is never
applied). -/
theorem c5_defaults (t : RawTable) (nt : NormTable)
    (hNo : t.hasNo = true) (hSc : t.hasScore = true) (hYr : t.hasYear = true)
    (h : processTable t = .ok nt) :
    List.Forall₂ (fun (raw : RawRow) (rec : Record) =>
      (toNumeric raw.score = none → rec.score = 0) ∧
      (toNumeric raw.no = none → rec.no = 1) ∧
      (raw.year = RawCell.absent → rec.year = "nan")) t.rows nt.rows := by
  have h2 : processRows t t.rows = .ok nt.rows := by
    simp only [processTable] at h
    cases hpr : processRows t t.rows with
    | error e => rw [hpr] at h; cases h
    | ok rs => rw [hpr] at h; cases h; rfl
  refine List.Forall₂.imp ?_ (processRows_forall2 t t.rows nt.rows h2)
  intro raw rec hrow
  obtain ⟨hscore, hno, hyear⟩ := processRow_fields t raw rec hrow
  refine ⟨?_, ?_, ?_⟩
  · intro habs; rw [hscore hSc, habs]; rfl
  · intro habs; exact hno hNo habs
  · intro habs; rw [hyear hYr, habs]; rfl

/-- C5 (counterexample): a record loaded with an absent academic-year cell
ends up with year "nan", not the claimed default "1" — `astype(str)`
stringifies the missing value before `fillna` runs, so the fill never
fires. -/
theorem c5_counterexample :
    processTable rawTableYearAbsent = .ok normYearAbsent ∧
    normYearAbsent.rows.map Record.year ≠ ["1"] := by
  constructor
  · rfl
  · decide

/-- C5 witness: `c5_defaults` applied to the concrete one-row raw table
with a missing year. -/
theorem c5_witness :
    List.Forall₂ (fun (raw : RawRow) (rec : Record) =>
      (toNumeric raw.score = none → rec.score = 0) ∧
      (toNumeric raw.no = none → rec.no = 1) ∧
      (raw.year = RawCell.absent → rec.year = "nan"))
      rawTableYearAbsent.rows normYearAbsent.rows :=
  c5_defaults rawTableYearAbsent normYearAbsent rfl rfl rfl (by rfl)

/-- `find?` succeeds on a list exactly when `any` does. -/
theorem find?_isSome_eq_any (p : Record → Bool) (l : List Record) :
    (l.find? p).isSome = l.any p := by
  induction l with
  | nil => rfl
  | cons a as ih => cases hpa : p a <;> simp [List.find?_cons, hpa, ih]

/-- The round numbers emitted by the trajectory are exactly the keys of
the stored rounds in which the email appears, in store order. -/
theorem progress_rounds (email : String) (store : List (ℕ × List Record)) :
    ((store.filterMap (progressFn email)).map ProgressEntry.round) =
      (store.filter (fun p => p.2.any (fun r => r.email == email))).map
        Prod.fst := by
  induction store with
  | nil => rfl
  | cons p rest ih =>
    have hps : (p.2.find? (fun r => r.email == email)).isSome =
        p.2.any (fun r => r.email == email) :=
      find?_isSome_eq_any _ _
    cases hf : p.2.find? (fun r => r.email == email) with
    | none =>
      rw [hf] at hps
      simp [List.filterMap_cons, List.filter_cons, progressFn, hf, ← hps, ih]
    | some r =>
      rw [hf] at hps
      simp [List.filterMap_cons, List.filter_cons, progressFn, hf, ← hps, ih]

/-- The keys of the store produced by `load_all_rounds_data` are strictly
ascending (they are a prefix of [1, 2, 3, 4]). -/
theorem store_keys_sorted (fs : String → Option (List Record)) :
    List.Pairwise (· < ·)
      ((load_all_rounds_data fs Monitor.init).2.all_rounds_data.map Prod.fst) := by
  rw [load_store_eq]
  have hmap :
      (((roundFiles.takeWhile (fun p => (fs p.2).isSome)).map
        (fun p => (p.1, (fs p.2).getD []))).map Prod.fst) =
      ((roundFiles.takeWhile (fun p => (fs p.2).isSome)).map Prod.fst) := by
    simp [List.map_map, Function.comp]
  rw [hmap]
  have hsub : ((roundFiles.takeWhile (fun p => (fs p.2).isSome)).map
      Prod.fst).Sublist (roundFiles.map Prod.fst) :=
    (List.takeWhile_sublist _).map Prod.fst
  exact List.Pairwise.sublist hsub (by decide)

/-- C7: against the store built by `load_all_rounds_data`, the trajectory
of any email emits its round numbers in strictly ascending order, and
those round numbers are exactly the stored rounds in which the email
appears — rounds without the email are omitted, with no null padding. -/
theorem c7_trajectory_sorted (fs : String → Option (List Record))
    (email : String) :
    List.Pairwise (· < ·)
      ((get_student_progress (load_all_rounds_data fs Monitor.init).2 email).map
        ProgressEntry.round) ∧
    (get_student_progress (load_all_rounds_data fs Monitor.init).2 email).map
        ProgressEntry.round =
      ((load_all_rounds_data fs Monitor.init).2.all_rounds_data.filter
        (fun p => p.2.any (fun r => r.email == email))).map Prod.fst := by
  constructor
  · have heq := progress_rounds email
      (load_all_rounds_data fs Monitor.init).2.all_rounds_data
    rw [get_student_progress, heq]
    have hsub : (((load_all_rounds_data fs
        Monitor.init).2.all_rounds_data.filter
          (fun p => p.2.any (fun r => r.email == email))).map
            Prod.fst).Sublist
        ((load_all_rounds_data fs Monitor.init).2.all_rounds_data.map
          Prod.fst) :=
      (List.filter_sublist _).map Prod.fst
    exact List.Pairwise.sublist hsub (store_keys_sorted fs)
  · exact progress_rounds email _

/-- The mean of a nonempty series whose entries lie in `[a, b]` lies in
`[a, b]`. -/
theorem seriesMean_bounds (l : List ℚ) (a b : ℚ) (hne : l ≠ [])
    (h : ∀ x ∈ l, a ≤ x ∧ x ≤ b) :
    ∃ m, seriesMean l = some m ∧ a ≤ m ∧ m ≤ b := by
  have hlen : 0 < (l.length : ℚ) := by
    have : 0 < l.length := List.length_pos.mpr hne
    exact_mod_cast this
  refine ⟨l.sum / l.length, by simp [seriesMean, hne], ?_, ?_⟩
  · rw [le_div_iff₀ hlen]
    have hs := List.card_nsmul_le_sum l a (fun x hx => (h x hx).1)
    rw [nsmul_eq_mul] at hs
    calc a * l.length = (l.length : ℚ) * a := by ring
    _ ≤ l.sum := hs
  · rw [div_le_iff₀ hlen]
    have hs := List.sum_le_card_nsmul l b (fun x hx => (h x hx).2)
    rw [nsmul_eq_mul] at hs
    calc l.sum ≤ (l.length : ℚ) * b := hs
    _ = b * l.length := by ring

/-- The department subset never has more rows than the full dataset. -/
theorem deptSubset_length_le (rows : List Record)
    (department : Option String) :
    (deptSubset rows department).length ≤ rows.length := by
  cases department with
  | none => simp [deptSubset]
  | some d =>
    by_cases hd : d.isEmpty <;> simp [deptSubset, hd, List.length_filter_le]

/-- C8 (counterexample): on an empty full population the radar computation
does not return a subset share of 0 — `len(dept_data) / len(data)` raises
`ZeroDivisionError`, the `except` branch returns an empty figure, and no
metrics are produced at all. -/
theorem c8_counterexample :
    create_performance_radar Monitor.init.data none = none ∧
    (create_performance_radar Monitor.init.data none).isSome = false := by
  decide

/-- C8 (amended): on a NONEMPTY dataset with its columns present, the radar
metrics are produced: the improvement indicator is the constant 0.5 and
the participation share `|subset| / |population|` lies in `[0, 1]`; when
the department subset is nonempty the pass rate and the top-tier
proportion lie in `[0, 1]`, and the mean score over 100 lies in `[0, 1]`
provided every score of the subset lies in `[0, 100]` (scores are not
range-checked by the engine).  When the full population is empty no
metrics are returned (division by zero, caught by `except`). -/
theorem c8_radar_metrics (t : NormTable) (department : Option String)
    (h1 : t.hasScore = true) (h2 : t.hasPassFail = true)
    (h3 : t.hasLevel = true) (h4 : t.hasDept = true)
    (hne : t.rows ≠ []) :
    ∃ m, create_performance_radar t department = some m ∧
      m.improvement = 1 / 2 ∧
      0 ≤ m.participation ∧ m.participation ≤ 1 ∧
      (deptSubset t.rows department ≠ [] →
        (∃ p, m.passRate = some p ∧ 0 ≤ p ∧ p ≤ 1) ∧
        (∃ q, m.topTierRate = some q ∧ 0 ≤ q ∧ q ≤ 1) ∧
        ((∀ r ∈ deptSubset t.rows department, 0 ≤ r.score ∧ r.score ≤ 100) →
          ∃ a, m.meanScoreNorm = some a ∧ 0 ≤ a ∧ a ≤ 1)) := by
  have hlen0 : ¬ t.rows.length = 0 := by
    intro hh
    exact hne (List.length_eq_zero.mp hh)
  have hlenpos : 0 < (t.rows.length : ℚ) := by
    have : 0 < t.rows.length := Nat.pos_of_ne_zero hlen0
    exact_mod_cast this
  refine
    ⟨{ meanScoreNorm :=
         (seriesMean ((deptSubset t.rows department).map Record.score)).map (· / 100)
     , passRate :=
         seriesMean ((deptSubset t.rows department).map
           (fun r => if r.passFail = "합격" then (1 : ℚ) else 0))
     , topTierRate :=
         seriesMean ((deptSubset t.rows department).map
           (fun r => if ["A", "B"].contains r.level then (1 : ℚ) else 0))
     , participation :=
         ((deptSubset t.rows department).length : ℚ) / (t.rows.length : ℚ)
     , improvement := 1 / 2 },
     by simp [create_performance_radar, h1, h2, h3, h4, hlen0], rfl, ?_, ?_, ?_⟩
  · positivity
  · rw [div_le_one hlenpos]
    exact_mod_cast deptSubset_length_le t.rows department
  · intro hdd
    have hddmap : ∀ (f : Record → ℚ),
        (deptSubset t.rows department).map f ≠ [] := by
      intro f hmap
      exact hdd (List.map_eq_nil_iff.mp hmap)
    refine ⟨?_, ?_, ?_⟩
    · have hbd : ∀ x ∈ (deptSubset t.rows department).map
          (fun r => if r.passFail = "합격" then (1 : ℚ) else 0),
          0 ≤ x ∧ x ≤ 1 := by
        intro x hx
        obtain ⟨r, _, hr⟩ := List.mem_map.mp hx
        rw [← hr]
        split <;> norm_num
      obtain ⟨p, hp, hp0, hp1⟩ := seriesMean_bounds _ 0 1 (hddmap _) hbd
      exact ⟨p, hp, hp0, hp1⟩
    · have hbd : ∀ x ∈ (deptSubset t.rows department).map
          (fun r => if ["A", "B"].contains r.level then (1 : ℚ) else 0),
          0 ≤ x ∧ x ≤ 1 := by
        intro x hx
        obtain ⟨r, _, hr⟩ := List.mem_map.mp hx
        rw [← hr]
        split <;> norm_num
      obtain ⟨q, hq, hq0, hq1⟩ := seriesMean_bounds _ 0 1 (hddmap _) hbd
      exact ⟨q, hq, hq0, hq1⟩
    · intro hsc
      have hbd : ∀ x ∈ (deptSubset t.rows department).map Record.score,
          0 ≤ x ∧ x ≤ 100 := by
        intro x hx
        obtain ⟨r, hrmem, hr⟩ := List.mem_map.mp hx
        rw [← hr]
        exact hsc r hrmem
      obtain ⟨v, hv, hv0, hv100⟩ := seriesMean_bounds _ 0 100 (hddmap _) hbd
      refine ⟨v / 100, by simp [hv], by positivity, ?_⟩
      rw [div_le_one (by norm_num : (0:ℚ) < 100)]
      exact hv100

/-- C8 witness: `c8_radar_metrics` at the concrete single-row dataset with
no department restriction. -/
theorem c8_witness :
    ∃ m, create_performance_radar soloTable none = some m ∧
      m.improvement = 1 / 2 ∧ 0 ≤ m.participation ∧ m.participation ≤ 1 := by
  obtain ⟨m, hm, h1, h2, h3, _⟩ :=
    c8_radar_metrics soloTable none rfl rfl rfl rfl (by decide)
  exact ⟨m, hm, h1, h2, h3⟩

/-- C10: when a round's table contains several records for the same email,
`get_student_progress` emits exactly one entry for that round, built from
the FIRST matching row (`.iloc[0]`); the later duplicates contribute
nothing. -/
theorem c10_first_match (pre post : List (ℕ × List Record)) (r : ℕ)
    (t1 t2 : List Record) (row : Record) (e : String)
    (hrow : row.email = e) (hpre : ∀ x ∈ t1, ¬ x.email = e) :
    get_student_progress ⟨Monitor.init.data, pre ++ (r, t1 ++ row :: t2) :: post⟩ e =
      get_student_progress ⟨Monitor.init.data, pre⟩ e ++
        ⟨r, row.score, row.passFail, row.level⟩ ::
          get_student_progress ⟨Monitor.init.data, post⟩ e := by
  have hfind : (t1 ++ row :: t2).find? (fun x => x.email == e) = some row := by
    induction t1 with
    | nil => simp [List.find?_cons, hrow]
    | cons a as ih =>
      have ha : (a.email == e) = false := by
        simpa using hpre a (by simp)
      have hrest : ∀ x ∈ as, ¬ x.email = e := fun x hx =>
        hpre x (List.mem_cons_of_mem _ hx)
      simpa [List.find?_cons, ha] using ih hrest
  simp [get_student_progress, List.filterMap_append, List.filterMap_cons,
        progressFn, hfind]

/-- C10 witness: a store whose round 1 holds two records for the same
email yields the single entry of the first one. -/
theorem c10_witness :
    get_student_progress ⟨Monitor.init.data, [(1, [soloRecord, dupRecord])]⟩
        "a@x" =
      [⟨1, soloRecord.score, soloRecord.passFail, soloRecord.level⟩] := by
  have h := c10_first_match [] [] 1 [] [dupRecord] soloRecord "a@x" rfl
    (by simp)
  simpa [get_student_progress] using h
